import Mathlib

/-!
Verification development for the OpenBookings Search_API core:
plan building (`src/services/search.plan.ts`), candidate SQL construction
(`candidate.query.ts`), the pipeline orchestrator
(`src/services/search/search.service.ts`) and the pipeline stages
(`candidate.stage.ts` and the stage stubs).

JavaScript numbers are modelled as `JSNum` (NaN / ±Infinity / a finite value
represented as a rational); dynamically typed values reaching the free-form
`filters` map are modelled as `JSVal`.  The host's string→number coercion
(`Number(stringValue)`) and `new Date(string)` parsing are modelled as
explicit oracle parameters, since their behaviour is host-defined.
-/

namespace SearchAPI

/-- A JavaScript number: NaN, ±Infinity, or a finite value.  Finite values are
modelled as rationals; all the repository's numeric paths (clamping, floors,
comparisons against small integer bounds) are exact on the floats involved. -/
inductive JSNum where
  | nan : JSNum
  | inf (positive : Bool) : JSNum
  | fin (q : ℚ) : JSNum
deriving DecidableEq, Repr

/-- `Number.isFinite`. -/
def JSNum.isFinite : JSNum → Bool
  | .fin _ => true
  | _ => false

/-- The rational carried by a finite number (junk `0` otherwise; only read on
paths where `Number.isFinite` has already been checked). -/
def JSNum.toQ : JSNum → ℚ
  | .fin q => q
  | _ => 0

/-- A dynamically typed JavaScript value as can occur in the free-form
`filters` / `options` record (`Record<string, unknown>`). -/
inductive JSVal where
  | num (x : JSNum)
  | str (s : String)
  | bool (b : Bool)
  | nullV
  | undefV
deriving DecidableEq, Repr

/-- Property read `obj.key` on a plain object: the stored value, or
`undefined` when the key is absent. -/
def getProp (o : List (String × JSVal)) (k : String) : JSVal :=
  match o.lookup k with
  | some v => v
  | none => .undefV

/-- Removing a key from an object (used to state "the same plan but with no
`capacityColumn` given"). -/
def removeProp (o : List (String × JSVal)) (k : String) : List (String × JSVal) :=
  o.filter (fun kv => ¬ kv.1 = k)

/-- JavaScript nullish coalescing `a ?? b`. -/
def jsNullish (a b : JSVal) : JSVal :=
  match a with
  | .undefV => b
  | .nullV => b
  | _ => a

/-- JavaScript `Number(v)` coercion.  String coercion is host behaviour and is
taken as the oracle `conv`. -/
def jsToNumber (conv : String → JSNum) : JSVal → JSNum
  | .num x => x
  | .str s => conv s
  | .bool b => .fin (if b then 1 else 0)
  | .nullV => .fin 0
  | .undefV => .nan

-- ─── Substring test on strings (used to state injection properties) ─────────

/-- `leadsWith hay pat`: the character list `pat` is an initial segment of
`hay`. -/
def leadsWith : List Char → List Char → Bool
  | _, [] => true
  | [], _ :: _ => false
  | c :: cs, d :: ds => c == d && leadsWith cs ds

/-- `hasSubList hay pat`: `pat` occurs contiguously somewhere in `hay`. -/
def hasSubList : List Char → List Char → Bool
  | hay, pat =>
    match hay with
    | [] => leadsWith [] pat
    | _ :: rest => leadsWith hay pat || hasSubList rest pat

/-- `strHas hay pat`: the string `pat` occurs as a substring of `hay`. -/
def strHas (hay pat : String) : Bool :=
  hasSubList hay.toList pat.toList

/-- JavaScript `String.prototype.trim` (leading and trailing whitespace
removed), implemented structurally on the character list so that concrete
proofs can evaluate it. -/
def jsTrim (s : String) : String :=
  String.mk (((s.data.dropWhile Char.isWhitespace).reverse.dropWhile Char.isWhitespace).reverse)

-- ─── Data model (`src/services/search/types.ts`) ────────────────────────────

/-- The caller-supplied `SearchInput` object (field values at a given moment;
the object itself is mutable by the caller).  `children`, `page`, `pageSize`
are optional numbers; `filters` an optional free-form record. -/
structure SearchInputState where
  latitude : JSNum
  longitude : JSNum
  checkIn : String
  checkOut : String
  adults : JSNum
  children : Option JSNum := none
  page : Option JSNum := none
  pageSize : Option JSNum := none
  filters : Option (List (String × JSVal)) := none
deriving DecidableEq, Repr

/-- The `{lat, lon}` point stored in the plan. -/
structure GeoPoint where
  lat : ℚ
  lon : ℚ
deriving DecidableEq, Repr

/-- The derived `SearchPlan`.  `checkInMs`/`checkOutMs` are the `getTime()`
values of the parsed dates; `page`/`pageSize` are naturals because
`parseNumber` clamps them to integers `≥ 1` (see `buildSearchPlan`). -/
structure SearchPlan where
  input : SearchInputState
  checkInMs : Int
  checkOutMs : Int
  nights : Int
  guests : ℚ
  page : Nat
  pageSize : Nat
  geo : Option GeoPoint
  radius : ℚ
  hasChildren : Bool
  options : Option (List (String × JSVal))
deriving DecidableEq, Repr

/-- The distinct validation error codes of `SearchPlanErrorCode`. -/
inductive SearchPlanErrorCode where
  | INVALID_CHECK_IN
  | INVALID_CHECK_OUT
  | INVALID_LATITUDE
  | INVALID_LONGITUDE
  | ARRIVAL_AFTER_DEPARTURE
  | STAY_TOO_SHORT
  | NO_GUESTS
  | INVALID_GUEST_COUNTS
deriving DecidableEq, Repr

-- ─── Plan builder (`src/services/search.plan.ts`) ───────────────────────────

def MS_PER_DAY : Int := 24 * 60 * 60 * 1000
def DEFAULT_PAGE : Int := 1
def DEFAULT_PAGE_SIZE : Int := 20
def DEFAULT_RADIUS_KM : ℚ := 10
def MIN_RADIUS_KM : ℚ := 1
def MAX_RADIUS_KM : ℚ := 500
def MIN_PAGE : Int := 1
def MIN_PAGE_SIZE : Int := 1
def MAX_PAGE_SIZE : Int := 100
/-- `Number.MAX_SAFE_INTEGER`, the `max` bound passed for `page`. -/
def MAX_SAFE_INTEGER : Int := 9007199254740991

/-- `parseDate(value, field)`: empty/whitespace-only strings are rejected; a
string the host `Date` parser rejects (NaN time) is rejected; otherwise the
parsed epoch-milliseconds value is returned.  `dateParse` is the host's
`new Date(string).getTime()` oracle (`none` = NaN).  `isCheckIn` selects the
error code, mirroring the `field` argument. -/
def parseDate (dateParse : String → Option Int) (value : String) (isCheckIn : Bool) :
    Except SearchPlanErrorCode Int :=
  let code : SearchPlanErrorCode :=
    if isCheckIn then .INVALID_CHECK_IN else .INVALID_CHECK_OUT
  if jsTrim value = "" then .error code
  else
    match dateParse (jsTrim value) with
    | none => .error code
    | some t => .ok t

/-- `parseNumber(value, defaultVal, min, max)`: default when missing or
non-finite, otherwise `Math.min(max, Math.max(min, Math.floor(n)))`. -/
def parseNumber (value : Option JSNum) (defaultVal lo hi : Int) : Int :=
  match value with
  | none => defaultVal
  | some n =>
    match n with
    | .fin q => min hi (max lo ⌊q⌋)
    | _ => defaultVal

/-- `parseGeo(input)`: latitude finite and in `[-90,90]`, then longitude
finite and in `[-180,180]`, in the source's check order. -/
def parseGeo (input : SearchInputState) : Except SearchPlanErrorCode GeoPoint :=
  match input.latitude with
  | .fin la =>
    if la < -90 ∨ la > 90 then .error .INVALID_LATITUDE
    else
      match input.longitude with
      | .fin lo =>
        if lo < -180 ∨ lo > 180 then .error .INVALID_LONGITUDE
        else .ok { lat := la, lon := lo }
      | _ => .error .INVALID_LONGITUDE
  | _ => .error .INVALID_LATITUDE

/-- `extractRadiusKm(filters)`: reads `filters.radiusKm ?? filters.radius`,
defaults to 10 when the map is missing or the value nullish or non-finite,
otherwise clamps (without flooring) into `[1,500]`. -/
def extractRadiusKm (conv : String → JSNum) (filters : Option (List (String × JSVal))) : ℚ :=
  match filters with
  | none => DEFAULT_RADIUS_KM
  | some f =>
    let r := jsNullish (getProp f "radiusKm") (getProp f "radius")
    if r = .undefV ∨ r = .nullV then DEFAULT_RADIUS_KM
    else
      match jsToNumber conv r with
      | .fin n => min MAX_RADIUS_KM (max MIN_RADIUS_KM n)
      | _ => DEFAULT_RADIUS_KM

/-- `buildSearchPlan(input)`, with the host date parser and string→number
coercion as oracles.  The returned plan's `options` is the shallow copy
`{...input.filters}` (same entries, a distinct object) and `input` is the
caller's object itself; `Object.freeze` fixes the plan's own properties (see
`observePlan` for the aliasing model). -/
def buildSearchPlan (conv : String → JSNum) (dateParse : String → Option Int)
    (input : SearchInputState) : Except SearchPlanErrorCode SearchPlan :=
  match parseDate dateParse input.checkIn true with
  | .error c => .error c
  | .ok checkInMs =>
    match parseDate dateParse input.checkOut false with
    | .error c => .error c
    | .ok checkOutMs =>
      if checkOutMs ≤ checkInMs then .error .ARRIVAL_AFTER_DEPARTURE
      else
        -- nights = Math.floor((checkOut - checkIn) / MS_PER_DAY); `fdiv` is
        -- floor division, matching Math.floor of the real quotient
        let nights := Int.fdiv (checkOutMs - checkInMs) MS_PER_DAY
        if nights < 1 then .error .STAY_TOO_SHORT
        else
          let adults : JSNum := input.adults
          let children : JSNum := match input.children with
            | some c => c
            | none => JSNum.fin 0
          if adults.isFinite = false ∨ adults.toQ < 0 ∨
              children.isFinite = false ∨ children.toQ < 0 then
            .error .INVALID_GUEST_COUNTS
          else
            let guests := adults.toQ + children.toQ
            if guests ≤ 0 then .error .NO_GUESTS
            else
              let page := parseNumber input.page DEFAULT_PAGE MIN_PAGE MAX_SAFE_INTEGER
              let pageSize := parseNumber input.pageSize DEFAULT_PAGE_SIZE MIN_PAGE_SIZE MAX_PAGE_SIZE
              match parseGeo input with
              | .error c => .error c
              | .ok geo =>
                let radius := extractRadiusKm conv input.filters
                let hasChildren := decide (0 < children.toQ)
                .ok { input := input
                      checkInMs := checkInMs
                      checkOutMs := checkOutMs
                      nights := nights
                      guests := guests
                      page := page.toNat
                      pageSize := pageSize.toNat
                      geo := some geo
                      radius := radius
                      hasChildren := hasChildren
                      options := input.filters }

-- ─── Candidate query (`candidate.query.ts`) ─────────────────────────────────

/-- Maximum candidate rows returned per search (`CANDIDATE_HARD_LIMIT`). -/
def CANDIDATE_HARD_LIMIT : Int := 1000

/-- Ceiling when overriding via `plan.options.candidateHardLimit`. -/
def CANDIDATE_HARD_LIMIT_MAX : Int := 3000

/-- Read `plan.options?.key`: `undefined` when the options map is absent. -/
def optionsProp (plan : SearchPlan) (k : String) : JSVal :=
  match plan.options with
  | some o => getProp o k
  | none => .undefV

/-- `resolveCandidateLimit(plan)`: a finite number `> 0` is floored and capped
at `CANDIDATE_HARD_LIMIT_MAX`; anything else gives `CANDIDATE_HARD_LIMIT`. -/
def resolveCandidateLimit (plan : SearchPlan) : Int :=
  match optionsProp plan "candidateHardLimit" with
  | .num n =>
    match n with
    | .fin q => if 0 < q then min ⌊q⌋ CANDIDATE_HARD_LIMIT_MAX else CANDIDATE_HARD_LIMIT
    | _ => CANDIDATE_HARD_LIMIT
  | _ => CANDIDATE_HARD_LIMIT

/-- The capacity-column allow-list. -/
def CAPACITY_COLUMNS : List String := ["max_guests", "maximum_guests", "capacity"]

/-- The geo-column allow-list. -/
def GEO_COLUMNS : List String := ["location", "geo"]

/-- `getCapacityColumn(plan)`: the value of `options.capacityColumn` when it
is a string on the allow-list, else `null`. -/
def getCapacityColumn (plan : SearchPlan) : Option String :=
  match optionsProp plan "capacityColumn" with
  | .str c => if c ∈ CAPACITY_COLUMNS then some c else none
  | _ => none

/-- `getGeoColumn(plan)`: the value of `options.geoColumn` when it is a
string on the allow-list, else the default `"location"`. -/
def getGeoColumn (plan : SearchPlan) : String :=
  match optionsProp plan "geoColumn" with
  | .str c => if c ∈ GEO_COLUMNS then c else "location"
  | _ => "location"

/-- The `SELECT` alias pushed for the capacity column. -/
def capacitySelect (c : String) : String :=
  if c = "maximum_guests" then "p.maximum_guests AS max_guests"
  else if c = "capacity" then "p.capacity AS max_guests"
  else "p.max_guests"

/-- `buildCandidateSql(plan)`: returns `{text, values}`.  `conditions`,
`values` and `selectParts` are accumulated exactly in the source's order, with
`pos` the running 1-based parameter index; the final template-literal text is
assembled with explicit `"\n"`s and trimmed like the source's `.trim()`. -/
def buildCandidateSql (plan : SearchPlan) : String × List JSVal :=
  let sel0 : List String := ["p.id", "p.name", "p.city", "p.country"]
  let pos0 : Nat := 1
  -- --- Capacity ---
  let capStep : List String × List JSVal × List String × Nat :=
    match getCapacityColumn plan with
    | some c =>
      (["p." ++ c ++ " >= $" ++ toString pos0],
       [JSVal.num (JSNum.fin plan.guests)],
       sel0 ++ [capacitySelect c],
       pos0 + 1)
    | none => ([], [], sel0, pos0)
  let conds1 := capStep.1
  let vals1 := capStep.2.1
  let sel1 := capStep.2.2.1
  let pos1 := capStep.2.2.2
  -- --- Geo ---
  let geoCol := getGeoColumn plan
  let geoStep : String × List String × List JSVal × List String × Nat :=
    match plan.geo with
    | some g =>
      ("\nWITH params AS (\n  SELECT\n    ST_SetSRID(ST_MakePoint($" ++ toString pos1 ++
         ", $" ++ toString (pos1 + 1) ++ "), 4326)::geography AS p\n)",
       conds1 ++ ["ST_DWithin(p." ++ geoCol ++ "::geography, params.p, $" ++
         toString (pos1 + 2) ++ ")"],
       vals1 ++ [JSVal.num (JSNum.fin g.lon), JSVal.num (JSNum.fin g.lat),
         JSVal.num (JSNum.fin (plan.radius * 1000))],
       sel1 ++ ["ST_Distance(p." ++ geoCol ++ "::geography, params.p) AS distance_meters"],
       pos1 + 3)
    | none => ("", conds1, vals1, sel1, pos1)
  let withParams := geoStep.1
  let conds2 := geoStep.2.1
  let vals2 := geoStep.2.2.1
  let sel2 := geoStep.2.2.2.1
  let pos2 := geoStep.2.2.2.2
  -- --- Limit ---
  let hardLimit := resolveCandidateLimit plan
  let values := vals2 ++ [JSVal.num (JSNum.fin hardLimit)]
  let limitParam := pos2
  let whereClause := if conds2 = [] then "TRUE" else String.intercalate " AND " conds2
  let text :=
    ("\n" ++ withParams ++
     "\nSELECT " ++ String.intercalate ", " sel2 ++
     "\nFROM properties p\n" ++
     (match plan.geo with | some _ => ", params" | none => "") ++
     "\nWHERE " ++ whereClause ++
     "\nORDER BY p.id\nLIMIT $" ++ toString limitParam ++ ";\n")
  (text, values)

-- ─── Row mapping (`mapRowToCandidate`) ──────────────────────────────────────

/-- A raw candidate row from the store (`CandidateRow`): nullable text fields
are `Option String`; `max_guests` collapses `undefined`/`null` to `none` as
the source's `!= null` test does. -/
structure CandidateRow where
  id : String
  name : Option String
  city : Option String
  country : Option String
  distance_meters : Option String
  max_guests : Option JSNum := none
  destination_id : Option String := none
deriving DecidableEq, Repr

/-- Render a JavaScript number into a template literal the way `Math.floor`
results are rendered (`NaN`/`Infinity` spelled out; the integral finite case
as a plain integer numeral). -/
def jsFloorString (n : JSNum) : String :=
  match n with
  | .fin q => toString ⌊q⌋
  | .nan => "NaN"
  | .inf b => if b then "Infinity" else "-Infinity"

/-- The mapped candidate record (`CandidateProperty`), restricted to the
fields `mapRowToCandidate` sets. -/
structure CandidateProperty where
  id : String
  name : String
  propertyType : Option String := none
  location : Option String := none
  distance_meters : Option String := none
  destinationId : Option String := none
  amenities : Option (List String) := none
  bedrooms : Option ℚ := none
  bathrooms : Option ℚ := none
  maxGuests : Option JSNum := none
deriving DecidableEq, Repr

/-- `mapRowToCandidate(r)`.  `location` is
`[r.city, r.country].filter(Boolean).join(", ") || undefined` (empty strings
and nulls dropped, empty join becomes `undefined`); `distance_meters` becomes
"`Math.floor(Number(r.distance_meters))` Meters" when non-null. -/
def mapRowToCandidate (conv : String → JSNum) (r : CandidateRow) : CandidateProperty :=
  let locParts := ([r.city, r.country].filterMap (fun x => x)).filter (fun s => ¬ s = "")
  let joined := String.intercalate ", " locParts
  { id := r.id
    name := match r.name with | some n => n | none => ""
    propertyType := none
    location := if joined = "" then none else some joined
    distance_meters :=
      match r.distance_meters with
      | some s => some (jsFloorString (jsToNumber conv (.str s)) ++ " Meters")
      | none => none
    destinationId := r.destination_id
    amenities := none
    bedrooms := none
    bathrooms := none
    maxGuests := r.max_guests }

/-- `runCandidateQuery(plan)`: builds the SQL, runs it against the store
(modelled as the oracle `db` from the built query to the returned rows), and
maps each row.  Mapping is total, mirroring the source. -/
def runCandidateQuery (db : String × List JSVal → List CandidateRow)
    (conv : String → JSNum) (plan : SearchPlan) : List CandidateProperty :=
  ((db (buildCandidateSql plan)).map (mapRowToCandidate conv))

-- ─── Pipeline stages ────────────────────────────────────────────────────────

/-- `AvailableProperty`: a candidate plus `available: true` and an optional
unit id. -/
structure AvailableProperty extends CandidateProperty where
  available : Bool
  unitId : Option String := none
deriving DecidableEq, Repr

/-- `PricedProperty`: an available property plus pricing fields. -/
structure PricedProperty extends AvailableProperty where
  totalPrice : ℚ
  currency : String
  pricePerNight : Option ℚ := none
  breakdown : Option (List (String × ℚ)) := none
deriving DecidableEq, Repr

/-- The `pagination` block of a `SearchResult`. -/
structure PaginationMeta where
  page : Nat
  pageSize : Nat
  total : Nat
  totalPages : Nat
deriving DecidableEq, Repr

/-- The final `SearchResult`. -/
structure SearchResult where
  properties : List PricedProperty
  pagination : PaginationMeta
deriving DecidableEq, Repr

/-- The `pagination` stage (`candidate.stage.ts`): `total` is the input
length, `totalPages = Math.max(1, Math.ceil(total / plan.pageSize))` (ceiling
of the exact quotient, as in JS float arithmetic for these integer ranges),
and the page is `properties.slice(start, start + plan.pageSize)` with
`start = (plan.page - 1) * plan.pageSize` (non-negative since built plans
have `page ≥ 1`, so `slice` is drop-then-take). -/
def pagination (plan : SearchPlan) (properties : List PricedProperty) : SearchResult :=
  let total := properties.length
  let totalPages := (max 1 (Int.ceil ((total : ℚ) / (plan.pageSize : ℚ)))).toNat
  let start := (plan.page - 1) * plan.pageSize
  let page := (properties.drop start).take plan.pageSize
  { properties := page
    pagination :=
      { page := plan.page, pageSize := plan.pageSize, total := total, totalPages := totalPages } }

/-- The shipped `availability` stage stub: returns `[]`. -/
def availabilityStage (plan : SearchPlan) (candidates : List CandidateProperty) :
    List AvailableProperty :=
  let _ := plan
  let _ := candidates
  []

/-- The shipped `stayRules` stage stub: pass-through. -/
def stayRulesStage (plan : SearchPlan) (properties : List AvailableProperty) :
    List AvailableProperty :=
  let _ := plan
  properties

/-- The shipped `pricing` stage stub: returns `[]`. -/
def pricingStage (plan : SearchPlan) (properties : List AvailableProperty) :
    List PricedProperty :=
  let _ := plan
  let _ := properties
  []

/-- The shipped `ranking` stage stub: pass-through. -/
def rankingStage (plan : SearchPlan) (properties : List PricedProperty) :
    List PricedProperty :=
  let _ := plan
  properties

-- ─── Orchestrator (`search.service.ts`) ─────────────────────────────────────

/-- The six pipeline stage names, in the service's fixed order. -/
inductive StageTag where
  | candidate | availability | stayRules | pricing | ranking | pagination
deriving DecidableEq, Repr

/-- The fixed stage order of the orchestrator. -/
def stageOrder : List StageTag :=
  [.candidate, .availability, .stayRules, .pricing, .ranking, .pagination]

/-- A set of stage implementations as the orchestrator consumes them: each is
`(plan, previousOutput) → nextOutput` and may fail (a rejected promise),
with failures of type `ε`. -/
structure Stages (ε : Type) where
  candidate : SearchPlan → Except ε (List CandidateProperty)
  availability : SearchPlan → List CandidateProperty → Except ε (List AvailableProperty)
  stayRules : SearchPlan → List AvailableProperty → Except ε (List AvailableProperty)
  pricing : SearchPlan → List AvailableProperty → Except ε (List PricedProperty)
  ranking : SearchPlan → List PricedProperty → Except ε (List PricedProperty)
  pagination : SearchPlan → List PricedProperty → Except ε SearchResult

/-- A failed search: either a plan-validation error thrown by
`buildSearchPlan` or a failure propagated from a stage. -/
inductive SearchFailure (ε : Type) where
  | planError (c : SearchPlanErrorCode)
  | stageError (e : ε)
deriving DecidableEq, Repr

/-- The `search` orchestrator, instrumented with the list of stages that were
actually invoked (in invocation order): the plan is built first; each stage
runs strictly after the previous one's output is available; the first
failure aborts the remaining sequence and is the sole outcome.  This mirrors
the sequential `await` chain of `search.service.ts`, where a thrown
error/rejected promise propagates immediately. -/
def search {ε : Type} (st : Stages ε) (conv : String → JSNum)
    (dateParse : String → Option Int) (input : SearchInputState) :
    Except (SearchFailure ε) SearchResult × List StageTag :=
  match buildSearchPlan conv dateParse input with
  | .error c => (.error (.planError c), [])
  | .ok plan =>
    match st.candidate plan with
    | .error e => (.error (.stageError e), [.candidate])
    | .ok candidates =>
      match st.availability plan candidates with
      | .error e => (.error (.stageError e), [.candidate, .availability])
      | .ok available =>
        match st.stayRules plan available with
        | .error e => (.error (.stageError e), [.candidate, .availability, .stayRules])
        | .ok afterStayRules =>
          match st.pricing plan afterStayRules with
          | .error e =>
            (.error (.stageError e), [.candidate, .availability, .stayRules, .pricing])
          | .ok priced =>
            match st.ranking plan priced with
            | .error e =>
              (.error (.stageError e),
               [.candidate, .availability, .stayRules, .pricing, .ranking])
            | .ok ranked =>
              match st.pagination plan ranked with
              | .error e => (.error (.stageError e), stageOrder)
              | .ok result => (.ok result, stageOrder)

/-- The stage set as shipped: DB-backed candidate stage (the store is the
oracle `db`), the `[]`/pass-through stubs, and the pure pagination stage. -/
def shippedStages (ε : Type) (db : String × List JSVal → List CandidateRow)
    (conv : String → JSNum) : Stages ε where
  candidate := fun plan => .ok (runCandidateQuery db conv plan)
  availability := fun plan candidates => .ok (availabilityStage plan candidates)
  stayRules := fun plan properties => .ok (stayRulesStage plan properties)
  pricing := fun plan properties => .ok (pricingStage plan properties)
  ranking := fun plan properties => .ok (rankingStage plan properties)
  pagination := fun plan properties => .ok (pagination plan properties)

-- ─── Aliasing model for the frozen plan ─────────────────────────────────────

/-- Reading the returned plan at a later time, when the caller's (mutable)
input object currently holds the field values `current`.  `Object.freeze(plan)`
fixes the plan's own properties at their build-time values — including
`options`, which was the distinct shallow-copy object `{...input.filters}`,
and the frozen `geo` object — but the `input` property stores a *reference*
to the caller's object, so reads through `plan.input` see the caller's
current values. -/
def observePlan (plan : SearchPlan) (current : SearchInputState) : SearchPlan :=
  { plan with input := current }

-- ─── Concrete fixtures (hosts, inputs, plans, stages) ───────────────────────

/-- A host string→number coercion for concrete runs: coerces the one distance
string used in the row fixture, NaN elsewhere. -/
def conv0 : String → JSNum := fun s =>
  if s = "1234.56" then JSNum.fin (123456 / 100) else JSNum.nan

/-- A host date parser for concrete runs: knows the two dates of the spec's
scenario input, NaN elsewhere. -/
def d0 : String → Option Int := fun s =>
  if s = "2026-01-12" then some 0
  else if s = "2026-01-14" then some 172800000
  else none

/-- The spec's scenario input: Amsterdam point, 2026-01-12 → 2026-01-14,
2 adults, everything else defaulted. -/
def input0 : SearchInputState :=
  { latitude := .fin 52, longitude := .fin 4, checkIn := "2026-01-12",
    checkOut := "2026-01-14", adults := .fin 2 }

/-- A placeholder plan for total extraction from `Except` results. -/
def fallbackPlan : SearchPlan :=
  { input := input0, checkInMs := 0, checkOutMs := 0, nights := 0, guests := 0,
    page := 1, pageSize := 20, geo := none, radius := 10, hasChildren := false,
    options := none }

/-- The plan built (with the concrete hosts) from an input, `fallbackPlan` on
validation failure. -/
def planOf (i : SearchInputState) : SearchPlan :=
  (buildSearchPlan conv0 d0 i).toOption.getD fallbackPlan

/-- The plan of the scenario input. -/
def plan0 : SearchPlan := planOf input0

/-- Scenario input with fractional `page` and oversized `pageSize`. -/
def input6 : SearchInputState :=
  { input0 with page := some (.fin (5 / 2)), pageSize := some (.fin 99999) }

/-- Its plan. -/
def plan6 : SearchPlan := planOf input6

/-- Scenario input with `page = 2^60`, far above `Number.MAX_SAFE_INTEGER`. -/
def input6big : SearchInputState :=
  { input0 with page := some (.fin (2 ^ 60)) }

/-- Its plan. -/
def plan6big : SearchPlan := planOf input6big

/-- Scenario input requesting a 1000 km radius (beyond the 500 cap). -/
def input7 : SearchInputState :=
  { input0 with filters := some [("radiusKm", .num (.fin 1000))] }

/-- Its plan. -/
def plan7 : SearchPlan := planOf input7

/-- Scenario input requesting `candidateHardLimit = 50000`, far above the
absolute ceiling. -/
def input2 : SearchInputState :=
  { input0 with filters := some [("candidateHardLimit", .num (.fin 50000))] }

/-- Its plan. -/
def plan2 : SearchPlan := planOf input2

/-- Input whose check-in and check-out are the same date string. -/
def inputSameDates : SearchInputState :=
  { input0 with checkOut := "2026-01-12" }

/-- The caller's input object after it mutated `adults` from 2 to 3. -/
def input0mut : SearchInputState := { input0 with adults := .fin 3 }

/-- A bare plan whose options carry `capacityColumn = "SELECT"`, a value not
on the allow-list. -/
def planCapSelect : SearchPlan :=
  { fallbackPlan with options := some [("capacityColumn", JSVal.str "SELECT")] }

/-- A bare plan whose options carry a non-allow-listed `geoColumn`. -/
def planGeoBad : SearchPlan :=
  { fallbackPlan with options := some [("geoColumn", JSVal.str "evil")] }

/-- A stage set whose availability stage fails, for exercising abort. -/
def failingStages : Stages String :=
  { candidate := fun _ => .ok []
    availability := fun _ _ => .error "availability backend down"
    stayRules := fun _ properties => .ok properties
    pricing := fun _ _ => .ok []
    ranking := fun _ properties => .ok properties
    pagination := fun plan properties => .ok (pagination plan properties) }

/-- A store row fixture. -/
def row0 : CandidateRow :=
  { id := "p1", name := some "Hotel", city := some "Amsterdam",
    country := some "NL", distance_meters := some "1234.56" }

/-- A store oracle returning one row for every query. -/
def db0 : String × List JSVal → List CandidateRow := fun _ => [row0]

/-- A priced property fixture for pagination runs. -/
def priced0 : PricedProperty :=
  { id := "p1", name := "Hotel", available := true, totalPrice := 0,
    currency := "EUR" }

/-- A plan with `page = 3`, `pageSize = 20` for the pagination scenario. -/
def plan45 : SearchPlan := { fallbackPlan with page := 3, pageSize := 20 }

-- ─── Helper lemmas ──────────────────────────────────────────────────────────

/-- Looking up a removed key yields nothing. -/
theorem lookup_removeProp (o : List (String × JSVal)) (k : String) :
    (removeProp o k).lookup k = none := by
  induction o with
  | nil => rfl
  | cons kv rest ih =>
    by_cases h : kv.1 = k
    · simpa [removeProp, List.filter_cons, h] using ih
    · have hb : (k == kv.1) = false := beq_eq_false_iff_ne.mpr (Ne.symm h)
      simpa [removeProp, List.filter_cons, h, List.lookup, hb] using ih

/-- Removing one key leaves other lookups unchanged. -/
theorem lookup_removeProp_ne (o : List (String × JSVal)) (k k' : String) (h : k' ≠ k) :
    (removeProp o k).lookup k' = o.lookup k' := by
  induction o with
  | nil => rfl
  | cons kv rest ih =>
    by_cases hk : kv.1 = k
    · have hb : (k' == k) = false := beq_eq_false_iff_ne.mpr h
      simpa [removeProp, List.filter_cons, hk, List.lookup, hb] using ih
    · by_cases hk' : k' = kv.1
      · simp [removeProp, List.filter_cons, hk, List.lookup, hk']
      · have hb : (k' == kv.1) = false := beq_eq_false_iff_ne.mpr hk'
        simpa [removeProp, List.filter_cons, hk, List.lookup, hb] using ih

/-- The capacity column is `null` or one of the three allow-listed names. -/
theorem getCapacityColumn_cases (plan : SearchPlan) :
    getCapacityColumn plan = none ∨ getCapacityColumn plan = some "max_guests" ∨
    getCapacityColumn plan = some "maximum_guests" ∨ getCapacityColumn plan = some "capacity" := by
  unfold getCapacityColumn
  split
  · rename_i c heq
    by_cases hc : c ∈ CAPACITY_COLUMNS
    · simp only [CAPACITY_COLUMNS, List.mem_cons, List.mem_singleton] at hc
      rcases hc with rfl | rfl | rfl | hc
      · simp [CAPACITY_COLUMNS]
      · simp [CAPACITY_COLUMNS]
      · simp [CAPACITY_COLUMNS]
      · cases hc
    · simp [hc]
  · left; rfl

/-- The geo column is one of the two allow-listed names. -/
theorem getGeoColumn_cases (plan : SearchPlan) :
    getGeoColumn plan = "location" ∨ getGeoColumn plan = "geo" := by
  unfold getGeoColumn
  split
  · rename_i c heq
    by_cases hc : c ∈ GEO_COLUMNS
    · simp only [GEO_COLUMNS, List.mem_cons, List.mem_singleton] at hc
      rcases hc with rfl | rfl | hc
      · simp [GEO_COLUMNS]
      · simp [GEO_COLUMNS]
      · cases hc
    · simp [hc]
  · left; rfl

/-- The generated SQL text depends on the plan only through the selected
capacity column, the presence of `geo`, and the selected geo column: the
numeric payloads (guests, coordinates, radius, limit) are bound values, not
text. -/
theorem buildCandidateSql_text_congr (p p' : SearchPlan)
    (hcap : getCapacityColumn p = getCapacityColumn p')
    (hgeo : p.geo.isSome = p'.geo.isSome)
    (hcol : getGeoColumn p = getGeoColumn p') :
    (buildCandidateSql p).1 = (buildCandidateSql p').1 := by
  rcases hg : p.geo with _ | g <;> rcases hg' : p'.geo with _ | g' <;>
    rw [hg, hg'] at hgeo
  · rcases hc : getCapacityColumn p with _ | c <;> rw [hc] at hcap <;>
      simp [buildCandidateSql, hc, hg, hg', ← hcap, hcol]
  · simp at hgeo
  · simp at hgeo
  · rcases hc : getCapacityColumn p with _ | c <;> rw [hc] at hcap <;>
      simp [buildCandidateSql, hc, hg, hg', ← hcap, hcol]

set_option maxRecDepth 8000 in
/-- Structural facts about every generated candidate query: the limit is the
last bound value and is referenced by the final `LIMIT` placeholder; the text
never contains `DROP TABLE properties`; and when `geo` is present the radius
(in meters) is the second-to-last bound value, referenced by the `ST_DWithin`
placeholder, with the distance projected as `distance_meters`. -/
theorem buildCandidateSql_facts (p : SearchPlan) :
    (buildCandidateSql p).2.getLast? = some (JSVal.num (JSNum.fin (resolveCandidateLimit p)))
  ∧ strHas (buildCandidateSql p).1
      ("LIMIT $" ++ toString (buildCandidateSql p).2.length ++ ";") = true
  ∧ strHas (buildCandidateSql p).1 "DROP TABLE properties" = false
  ∧ (∀ g, p.geo = some g →
      ((buildCandidateSql p).2[(buildCandidateSql p).2.length - 2]?
          = some (JSVal.num (JSNum.fin (p.radius * 1000)))
      ∧ strHas (buildCandidateSql p).1
          ("ST_DWithin(p." ++ getGeoColumn p ++ "::geography, params.p, $"
            ++ toString ((buildCandidateSql p).2.length - 1) ++ ")") = true
      ∧ strHas (buildCandidateSql p).1
          ("ST_Distance(p." ++ getGeoColumn p
            ++ "::geography, params.p) AS distance_meters") = true)) := by
  rcases getCapacityColumn_cases p with hc | hc | hc | hc <;>
    rcases getGeoColumn_cases p with hcol | hcol <;>
    rcases hg : p.geo with _ | g <;>
    refine ⟨?_, ?_, ?_, ?_⟩ <;>
    simp only [buildCandidateSql, hc, hcol, hg] <;>
    first
    | rfl
    | ((try simp only [List.length_append, List.length_cons, List.length_nil, List.nil_append])
       decide)
    | (intro g' hgeq; exact Option.noConfusion hgeq)
    | (intro g' hgeq
       injection hgeq with hgeq
       subst hgeq
       refine ⟨rfl, ?_, ?_⟩ <;>
         ((try simp only [List.length_append, List.length_cons, List.length_nil, List.nil_append])
          decide))

/-- Removing a key makes its property read `undefined`. -/
theorem getProp_removeProp (o : List (String × JSVal)) (k : String) :
    getProp (removeProp o k) k = .undefV := by
  simp [getProp, lookup_removeProp]

/-- Removing a key leaves other property reads unchanged. -/
theorem getProp_removeProp_ne (o : List (String × JSVal)) (k k' : String) (h : k' ≠ k) :
    getProp (removeProp o k) k' = getProp o k' := by
  simp [getProp, lookup_removeProp_ne o k k' h]

/-- C1 (amended): a `capacityColumn` value that is a string not on the
three-name allow-list is ignored: the generated SQL text equals the text
generated when no `capacityColumn` is given at all (so no capacity filter
clause appears and the value is never interpolated), and the text never
contains `DROP TABLE properties`; likewise a `geoColumn` value outside the
allow-list falls back to `"location"`.  (The claim's stronger clause — that
the supplied string never occurs as a substring of the SQL — fails for
strings such as `"SELECT"` that coincide with fixed SQL fragments; see the
counterexample.) -/
theorem capacity_allowlist_sql_unchanged :
    (∀ (plan : SearchPlan) (s : String),
        optionsProp plan "capacityColumn" = JSVal.str s → s ∉ CAPACITY_COLUMNS →
        (buildCandidateSql plan).1 =
          (buildCandidateSql
            { plan with options := plan.options.map (fun o => removeProp o "capacityColumn") }).1
      ∧ strHas (buildCandidateSql plan).1 "DROP TABLE properties" = false)
  ∧ (∀ (plan : SearchPlan) (s : String),
        optionsProp plan "geoColumn" = JSVal.str s → s ∉ GEO_COLUMNS →
        getGeoColumn plan = "location") := by
  constructor
  · intro plan s hs hmem
    have hcapP : getCapacityColumn plan = none := by
      unfold getCapacityColumn
      rw [hs]
      simp [hmem]
    have hcapP' : getCapacityColumn
        { plan with options := plan.options.map (fun o => removeProp o "capacityColumn") }
        = none := by
      unfold getCapacityColumn optionsProp
      rcases plan.options with _ | o
      · rfl
      · simp [getProp_removeProp]
    have hcol : getGeoColumn plan = getGeoColumn
        { plan with options := plan.options.map (fun o => removeProp o "capacityColumn") } := by
      unfold getGeoColumn optionsProp
      rcases plan.options with _ | o
      · rfl
      · simp [getProp_removeProp_ne o "capacityColumn" "geoColumn" (by decide)]
    refine ⟨buildCandidateSql_text_congr _ _ (hcapP.trans hcapP'.symm) rfl hcol,
      (buildCandidateSql_facts plan).2.2.1⟩
  · intro plan s hs hmem
    unfold getGeoColumn
    rw [hs]
    simp [hmem]

/-- C1 (counterexample to the claim as stated): with
`options.capacityColumn = "SELECT"` — a string not on the allow-list — the
value is ignored, yet it *does* occur as a substring of the generated SQL
text, because it coincides with the fixed `SELECT` keyword; so "the supplied
string never occurs as a substring of the generated SQL text" is false. -/
theorem capacity_substring_counterexample :
    ¬ ("SELECT" ∈ CAPACITY_COLUMNS)
  ∧ optionsProp planCapSelect "capacityColumn" = JSVal.str "SELECT"
  ∧ strHas (buildCandidateSql planCapSelect).1 "SELECT" = true :=
  ⟨by decide, rfl, by decide⟩

/-- C1 (witness): the amended theorem applied to the concrete plan carrying
`capacityColumn = "SELECT"` and to a plan carrying a non-allow-listed
`geoColumn`. -/
theorem capacity_allowlist_sql_unchanged_witness :
    ¬ ("SELECT" ∈ CAPACITY_COLUMNS)
  ∧ (buildCandidateSql planCapSelect).1 =
      (buildCandidateSql
        { planCapSelect with
          options := planCapSelect.options.map (fun o => removeProp o "capacityColumn") }).1
  ∧ strHas (buildCandidateSql planCapSelect).1 "DROP TABLE properties" = false
  ∧ getGeoColumn planGeoBad = "location" := by
  refine ⟨by decide, ?_, ?_, ?_⟩
  · exact (capacity_allowlist_sql_unchanged.1 planCapSelect "SELECT" rfl (by decide)).1
  · exact (capacity_allowlist_sql_unchanged.1 planCapSelect "SELECT" rfl (by decide)).2
  · exact capacity_allowlist_sql_unchanged.2 planGeoBad "evil" rfl (by decide)

/-- C2: the row limit bound into the query's final `LIMIT` placeholder never
exceeds the absolute ceiling 3000; a finite override `> 0` gives
`min(floor(override), 3000)`; anything else (absent, non-numeric, non-finite,
or `≤ 0`) gives the default 1000; and the limit is the last bound value,
referenced by the `LIMIT $n` placeholder with `n` the number of bound
values. -/
theorem candidate_limit_clamped (plan : SearchPlan) :
    resolveCandidateLimit plan ≤ CANDIDATE_HARD_LIMIT_MAX
  ∧ (∀ q : ℚ, optionsProp plan "candidateHardLimit" = JSVal.num (JSNum.fin q) → 0 < q →
      resolveCandidateLimit plan = min ⌊q⌋ CANDIDATE_HARD_LIMIT_MAX)
  ∧ ((¬ ∃ q : ℚ, optionsProp plan "candidateHardLimit" = JSVal.num (JSNum.fin q) ∧ 0 < q) →
      resolveCandidateLimit plan = CANDIDATE_HARD_LIMIT)
  ∧ (buildCandidateSql plan).2.getLast? = some (JSVal.num (JSNum.fin (resolveCandidateLimit plan)))
  ∧ strHas (buildCandidateSql plan).1
      ("LIMIT $" ++ toString (buildCandidateSql plan).2.length ++ ";") = true := by
  refine ⟨?_, ?_, ?_, (buildCandidateSql_facts plan).1, (buildCandidateSql_facts plan).2.1⟩
  · rcases h : optionsProp plan "candidateHardLimit" with x | s | b | _ | _ <;>
      simp only [resolveCandidateLimit, h] <;>
      try decide
    rcases x with _ | pb | q <;> dsimp only <;> try decide
    split
    · exact min_le_right _ _
    · decide
  · intro q h h0
    simp [resolveCandidateLimit, h, h0]
  · intro hne
    rcases h : optionsProp plan "candidateHardLimit" with x | s | b | _ | _ <;>
      simp only [resolveCandidateLimit, h] <;>
      try rfl
    rcases x with _ | pb | q <;> dsimp only <;> try rfl
    rw [if_neg]
    intro h0
    exact hne ⟨q, h, h0⟩

/-- C2 (witness): a plan requesting `candidateHardLimit = 50000` is clamped
to 3000. -/
theorem candidate_limit_clamped_witness :
    optionsProp plan2 "candidateHardLimit" = JSVal.num (JSNum.fin 50000)
  ∧ resolveCandidateLimit plan2 = 3000
  ∧ resolveCandidateLimit plan2 ≤ CANDIDATE_HARD_LIMIT_MAX := by
  have h := candidate_limit_clamped plan2
  refine ⟨by with_unfolding_all rfl, ?_, h.1⟩
  have h2 := h.2.1 50000 (by with_unfolding_all rfl) (by norm_num)
  rw [h2]
  with_unfolding_all rfl

/-- A natural is at most its ceiling-divide times the divisor. -/
theorem le_ceilDiv_mul (t ps : ℕ) (h : 1 ≤ ps) : t ≤ ((t + ps - 1) / ps) * ps := by
  have h1 := Nat.div_add_mod (t + ps - 1) ps
  have h2 : (t + ps - 1) % ps < ps := Nat.mod_lt _ (by omega)
  rw [Nat.mul_comm]
  omega

/-- `Math.max(1, Math.ceil(total / pageSize))` over the exact rational
quotient agrees with the natural-number formula `max 1 ((t + ps - 1) / ps)`
for positive `ps`. -/
theorem ceil_quotient_toNat (t ps : ℕ) (h : 1 ≤ ps) :
    (max 1 (Int.ceil ((t : ℚ) / (ps : ℚ)))).toNat = max 1 ((t + ps - 1) / ps) := by
  obtain ⟨ps', rfl⟩ : ∃ ps', ps = ps' + 1 := ⟨ps - 1, by omega⟩
  have hsub : t + (ps' + 1) - 1 = t + ps' := by omega
  rw [hsub]
  set D := (t + ps') / (ps' + 1) with hD
  have hDle : D * (ps' + 1) ≤ t + ps' := Nat.div_mul_le_self _ _
  have hDge : t ≤ D * (ps' + 1) := by
    have h1 := Nat.div_add_mod (t + ps') (ps' + 1)
    rw [← hD] at h1
    have h2 : (t + ps') % (ps' + 1) < ps' + 1 := Nat.mod_lt _ (Nat.succ_pos _)
    rw [Nat.mul_comm]
    omega
  have hps : (0 : ℚ) < ((ps' + 1 : ℕ) : ℚ) := by exact_mod_cast Nat.succ_pos ps'
  have hcast : ((ps' + 1 : ℕ) : ℚ) = (ps' : ℚ) + 1 := by push_cast; ring
  have hq : (D : ℚ) * ((ps' : ℚ) + 1) ≤ (t : ℚ) + (ps' : ℚ) := by exact_mod_cast hDle
  have hceil : Int.ceil ((t : ℚ) / ((ps' + 1 : ℕ) : ℚ)) = ((D : ℕ) : ℤ) := by
    rw [Int.ceil_eq_iff]
    constructor
    · rw [lt_div_iff₀ hps, hcast]
      push_cast
      nlinarith [hq]
    · rw [div_le_iff₀ hps, hcast]
      push_cast
      nlinarith [hDge, (by exact_mod_cast hDge : (t : ℚ) ≤ (D : ℚ) * ((ps' : ℚ) + 1))]
  rw [hceil, ← Nat.cast_one, ← Nat.cast_max, Int.toNat_natCast]

/-- C3: the pagination stage is the pure function of the ranked list and the
plan's `page`/`pageSize` the spec describes — `total` is the list length,
`totalPages = max(1, ceil(total / pageSize))`, the page is the slice
`[(page-1)·pageSize, page·pageSize)` — and any page beyond `totalPages`
yields an empty properties array with the same metadata. -/
theorem pagination_spec (plan : SearchPlan) (props : List PricedProperty)
    (h1 : 1 ≤ plan.page) (h2 : 1 ≤ plan.pageSize) :
    pagination plan props =
      { properties := (props.drop ((plan.page - 1) * plan.pageSize)).take plan.pageSize
        pagination :=
          { page := plan.page, pageSize := plan.pageSize, total := props.length
            totalPages := max 1 ((props.length + plan.pageSize - 1) / plan.pageSize) } }
  ∧ (max 1 ((props.length + plan.pageSize - 1) / plan.pageSize) < plan.page →
      (pagination plan props).properties = []) := by
  constructor
  · simp only [pagination]
    rw [ceil_quotient_toNat props.length plan.pageSize h2]
  · intro hbeyond
    simp only [pagination]
    have hlen : props.length ≤ (plan.page - 1) * plan.pageSize := by
      have hD := le_ceilDiv_mul props.length plan.pageSize h2
      have : ((props.length + plan.pageSize - 1) / plan.pageSize) * plan.pageSize
          ≤ (plan.page - 1) * plan.pageSize := by
        apply Nat.mul_le_mul_right
        omega
      omega
    simp [List.drop_eq_nil_of_le hlen]

/-- C3 (witness): a ranked list of 45 properties with `page = 3`,
`pageSize = 20` yields a 5-element page, `total = 45`, `totalPages = 3`. -/
theorem pagination_spec_witness :
    (pagination plan45 (List.replicate 45 priced0)).properties.length = 5
  ∧ (pagination plan45 (List.replicate 45 priced0)).pagination.total = 45
  ∧ (pagination plan45 (List.replicate 45 priced0)).pagination.totalPages = 3
  ∧ (pagination plan45 (List.replicate 45 priced0)).pagination.page = 3 := by
  have h := (pagination_spec plan45 (List.replicate 45 priced0) (by decide) (by decide)).1
  rw [h]
  exact ⟨rfl, rfl, rfl, rfl⟩

/-- Every successfully built plan carries: the caller's input object, the
parsed/normalized `page`, `pageSize` and `radius`, the filters map as its
options, and a present `geo`. -/
theorem build_ok_fields (conv : String → JSNum) (dp : String → Option Int)
    (input : SearchInputState) (plan : SearchPlan)
    (h : buildSearchPlan conv dp input = .ok plan) :
    plan.input = input
  ∧ plan.page = (parseNumber input.page DEFAULT_PAGE MIN_PAGE MAX_SAFE_INTEGER).toNat
  ∧ plan.pageSize = (parseNumber input.pageSize DEFAULT_PAGE_SIZE MIN_PAGE_SIZE MAX_PAGE_SIZE).toNat
  ∧ plan.radius = extractRadiusKm conv input.filters
  ∧ plan.options = input.filters
  ∧ plan.geo.isSome = true := by
  simp only [buildSearchPlan] at h
  repeat' split at h
  all_goals first
    | exact Except.noConfusion h
    | (injection h with h
       subst h
       exact ⟨rfl, rfl, rfl, rfl, rfl, rfl⟩)

/-- Acceptance by `buildSearchPlan` does not depend on `page` or `pageSize`:
those are only normalized, never validated. -/
theorem build_isOk_page_invariant (conv : String → JSNum) (dp : String → Option Int)
    (input : SearchInputState) (v w : Option JSNum) :
    (buildSearchPlan conv dp { input with page := v, pageSize := w }).isOk
      = (buildSearchPlan conv dp input).isOk := by
  unfold buildSearchPlan
  dsimp only
  rw [show parseGeo { input with page := v, pageSize := w } = parseGeo input from rfl]
  rcases parseDate dp input.checkIn true with c | t1 <;>
    rcases parseDate dp input.checkOut false with c2 | t2 <;>
    dsimp only <;>
    try rfl
  repeat' split <;> try rfl

/-- `parseNumber` always lands in `[lo, hi]` when the default does. -/
theorem parseNumber_bounds (val : Option JSNum) (d lo hi : Int)
    (h1 : lo ≤ d) (h2 : d ≤ hi) :
    lo ≤ parseNumber val d lo hi ∧ parseNumber val d lo hi ≤ hi := by
  unfold parseNumber
  rcases val with _ | x
  · exact ⟨h1, h2⟩
  rcases x with _ | b | q <;> dsimp only
  · exact ⟨h1, h2⟩
  · exact ⟨h1, h2⟩
  · exact ⟨le_min (h1.trans h2) (le_max_left _ _), min_le_left _ _⟩

/-- C6 (amended): in every built plan `page ≥ 1` and `1 ≤ pageSize ≤ 100`;
`page` defaults to 1, is floored, has minimum 1 and is clamped above at
`Number.MAX_SAFE_INTEGER` (9007199254740991) — not unbounded as claimed;
`pageSize` defaults to 20, is floored and clamped into `[1,100]`; non-finite
values fall back to the default; and no `page`/`pageSize` value can make
plan building fail. -/
theorem page_clamped_max_safe (conv : String → JSNum) (dp : String → Option Int)
    (input : SearchInputState) (plan : SearchPlan)
    (h : buildSearchPlan conv dp input = .ok plan) :
    1 ≤ plan.page
  ∧ 1 ≤ plan.pageSize
  ∧ plan.pageSize ≤ 100
  ∧ (input.page = none → plan.page = 1)
  ∧ (∀ x, input.page = some x → x.isFinite = false → plan.page = 1)
  ∧ (∀ q : ℚ, input.page = some (.fin q) →
      (plan.page : Int) = min MAX_SAFE_INTEGER (max 1 ⌊q⌋))
  ∧ (input.pageSize = none → plan.pageSize = 20)
  ∧ (∀ x, input.pageSize = some x → x.isFinite = false → plan.pageSize = 20)
  ∧ (∀ q : ℚ, input.pageSize = some (.fin q) →
      (plan.pageSize : Int) = min 100 (max 1 ⌊q⌋))
  ∧ (∀ v w, (buildSearchPlan conv dp { input with page := v, pageSize := w }).isOk = true) := by
  obtain ⟨-, hp, hps, -, -, -⟩ := build_ok_fields conv dp input plan h
  have hb1 := parseNumber_bounds input.page DEFAULT_PAGE MIN_PAGE MAX_SAFE_INTEGER
    (by norm_num [DEFAULT_PAGE, MIN_PAGE]) (by norm_num [DEFAULT_PAGE, MAX_SAFE_INTEGER])
  have hb2 := parseNumber_bounds input.pageSize DEFAULT_PAGE_SIZE MIN_PAGE_SIZE MAX_PAGE_SIZE
    (by norm_num [DEFAULT_PAGE_SIZE, MIN_PAGE_SIZE]) (by norm_num [DEFAULT_PAGE_SIZE, MAX_PAGE_SIZE])
  have e1 : MIN_PAGE = 1 := rfl
  have e2 : MIN_PAGE_SIZE = 1 := rfl
  have e3 : MAX_PAGE_SIZE = 100 := rfl
  refine ⟨?_, ?_, ?_, ?_, ?_, ?_, ?_, ?_, ?_, ?_⟩
  · rw [hp]; omega
  · rw [hps]; omega
  · rw [hps]; omega
  · intro h0
    rw [hp, h0]
    rfl
  · intro x hx hfin
    rw [hp, hx]
    rcases x with _ | b | q
    · rfl
    · rfl
    · cases hfin
  · intro q hq
    have hge : (1 : Int) ≤ min MAX_SAFE_INTEGER (max 1 ⌊q⌋) :=
      le_min (by norm_num [MAX_SAFE_INTEGER]) (le_max_left _ _)
    rw [hp, hq]
    rw [show parseNumber (some (.fin q)) DEFAULT_PAGE MIN_PAGE MAX_SAFE_INTEGER
        = min MAX_SAFE_INTEGER (max 1 ⌊q⌋) from rfl]
    rw [Int.toNat_of_nonneg (by omega)]
  · intro h0
    rw [hps, h0]
    rfl
  · intro x hx hfin
    rw [hps, hx]
    rcases x with _ | b | q
    · rfl
    · rfl
    · cases hfin
  · intro q hq
    have hge : (1 : Int) ≤ min 100 (max 1 ⌊q⌋) :=
      le_min (by norm_num) (le_max_left _ _)
    rw [hps, hq]
    rw [show parseNumber (some (.fin q)) DEFAULT_PAGE_SIZE MIN_PAGE_SIZE MAX_PAGE_SIZE
        = min 100 (max 1 ⌊q⌋) from rfl]
    rw [Int.toNat_of_nonneg (by omega)]
  · intro v w
    rw [build_isOk_page_invariant conv dp input v w, h]
    rfl

/-- C6 (counterexample to the claim as stated): `page = 2^60` is accepted
but the plan's page is `Number.MAX_SAFE_INTEGER` = 9007199254740991, not the
floored input value — `page` is *not* unbounded above. -/
theorem page_unbounded_counterexample :
    buildSearchPlan conv0 d0 input6big = .ok plan6big
  ∧ input6big.page = some (.fin (2 ^ 60))
  ∧ plan6big.page = 9007199254740991
  ∧ ((9007199254740991 : Int) ≠ max 1 ⌊(2 ^ 60 : ℚ)⌋) := by
  refine ⟨by with_unfolding_all rfl, rfl, by with_unfolding_all rfl, ?_⟩
  have h1 : ⌊(2 ^ 60 : ℚ)⌋ = (2 ^ 60 : ℤ) := by norm_num
  rw [h1, max_eq_right (by norm_num : (1 : ℤ) ≤ 2 ^ 60)]
  norm_num

/-- C6 (witness): the amended theorem at a concrete input with fractional
`page = 5/2` (floored to 2) and `pageSize = 99999` (clamped to 100). -/
theorem page_clamped_max_safe_witness :
    buildSearchPlan conv0 d0 input6 = .ok plan6
  ∧ plan6.page = 2
  ∧ plan6.pageSize = 100
  ∧ 1 ≤ plan6.page ∧ 1 ≤ plan6.pageSize ∧ plan6.pageSize ≤ 100 := by
  have h : buildSearchPlan conv0 d0 input6 = .ok plan6 := by with_unfolding_all rfl
  obtain ⟨h1, h2, h3, h4, h5, h6, h7, h8, h9, h10⟩ :=
    page_clamped_max_safe conv0 d0 input6 plan6 h
  refine ⟨h, ?_, ?_, h1, h2, h3⟩
  · have hq := h6 (5 / 2) rfl
    have hval : min MAX_SAFE_INTEGER (max 1 ⌊(5 / 2 : ℚ)⌋) = 2 := by
      with_unfolding_all rfl
    omega
  · have hq := h9 99999 rfl
    have hval : min 100 (max 1 ⌊(99999 : ℚ)⌋) = (100 : ℤ) := by
      with_unfolding_all rfl
    omega

/-- `extractRadiusKm` always lands in `[1,500]`. -/
theorem extractRadius_bounds (conv : String → JSNum)
    (f : Option (List (String × JSVal))) :
    1 ≤ extractRadiusKm conv f ∧ extractRadiusKm conv f ≤ 500 := by
  unfold extractRadiusKm
  rcases f with _ | o
  · norm_num [DEFAULT_RADIUS_KM]
  · dsimp only
    split
    · norm_num [DEFAULT_RADIUS_KM]
    · rcases jsToNumber conv (jsNullish (getProp o "radiusKm") (getProp o "radius"))
        with _ | b | q <;> dsimp only
      · norm_num [DEFAULT_RADIUS_KM]
      · norm_num [DEFAULT_RADIUS_KM]
      · refine ⟨le_min (by norm_num [MAX_RADIUS_KM]) ?_, min_le_left _ _⟩
        · simp only [MIN_RADIUS_KM]
          exact le_max_left _ _

/-- C7: in every built plan the radius is in `[1,500]`, read from
`filters.radiusKm` with fallback to the legacy `filters.radius` (modelled by
the nullish-coalesced read `r`), defaulting to 10 when the filters map is
missing or the value nullish, clamping a finite value into `[1,500]`, and
falling back to the default 10 on a non-finite value rather than erroring. -/
theorem radius_normalization (conv : String → JSNum) (dp : String → Option Int)
    (input : SearchInputState) (plan : SearchPlan)
    (h : buildSearchPlan conv dp input = .ok plan) :
    1 ≤ plan.radius
  ∧ plan.radius ≤ 500
  ∧ (input.filters = none → plan.radius = 10)
  ∧ (∀ f, input.filters = some f →
      ((jsNullish (getProp f "radiusKm") (getProp f "radius") = .undefV ∨
          jsNullish (getProp f "radiusKm") (getProp f "radius") = .nullV) →
        plan.radius = 10)
    ∧ (∀ q : ℚ,
        ¬(jsNullish (getProp f "radiusKm") (getProp f "radius") = .undefV ∨
            jsNullish (getProp f "radiusKm") (getProp f "radius") = .nullV) →
        jsToNumber conv (jsNullish (getProp f "radiusKm") (getProp f "radius")) = .fin q →
        plan.radius = min 500 (max 1 q))
    ∧ (¬(jsNullish (getProp f "radiusKm") (getProp f "radius") = .undefV ∨
          jsNullish (getProp f "radiusKm") (getProp f "radius") = .nullV) →
        (jsToNumber conv (jsNullish (getProp f "radiusKm") (getProp f "radius"))).isFinite
            = false →
        plan.radius = 10)) := by
  obtain ⟨-, -, -, hr, -, -⟩ := build_ok_fields conv dp input plan h
  obtain ⟨hlo, hhi⟩ := extractRadius_bounds conv input.filters
  refine ⟨hr ▸ hlo, hr ▸ hhi, ?_, ?_⟩
  · intro h0
    rw [hr, h0]
    rfl
  · intro f hf
    refine ⟨?_, ?_, ?_⟩
    · intro hnull
      rw [hr, hf]
      simp [extractRadiusKm, hnull, DEFAULT_RADIUS_KM]
    · intro q hnot hv
      rw [hr, hf]
      simp [extractRadiusKm, hnot, hv, MAX_RADIUS_KM, MIN_RADIUS_KM]
    · intro hnot hfin
      rw [hr, hf]
      rcases hv : jsToNumber conv (jsNullish (getProp f "radiusKm") (getProp f "radius"))
        with _ | b | q
      · simp [extractRadiusKm, hnot, hv, DEFAULT_RADIUS_KM]
      · simp [extractRadiusKm, hnot, hv, DEFAULT_RADIUS_KM]
      · rw [hv] at hfin
        cases hfin

/-- C7 (witness): `filters.radiusKm = 1000` is clamped to the plan radius
500, which lies in `[1,500]`. -/
theorem radius_normalization_witness :
    buildSearchPlan conv0 d0 input7 = .ok plan7
  ∧ plan7.radius = 500
  ∧ 1 ≤ plan7.radius ∧ plan7.radius ≤ 500 := by
  have h : buildSearchPlan conv0 d0 input7 = .ok plan7 := by with_unfolding_all rfl
  obtain ⟨hlo, hhi, -, hcase⟩ := radius_normalization conv0 d0 input7 plan7 h
  refine ⟨h, ?_, hlo, hhi⟩
  have hv := (hcase [("radiusKm", .num (.fin 1000))] rfl).2.1 1000 (by decide) rfl
  rw [hv]
  norm_num

/-- `parseGeo` only ever fails with one of the two geo error codes. -/
theorem parseGeo_error_codes (input : SearchInputState) (c : SearchPlanErrorCode)
    (h : parseGeo input = .error c) :
    c = .INVALID_LATITUDE ∨ c = .INVALID_LONGITUDE := by
  unfold parseGeo at h
  repeat' split at h
  all_goals simp_all

/-- C5: when both date strings parse, `buildSearchPlan` fails with
`ARRIVAL_AFTER_DEPARTURE` exactly when the parsed check-in time is greater
than or equal to the parsed check-out time, and in that case the
orchestrator invokes no stage at all — candidate resolution never runs. -/
theorem arrival_after_departure_iff (conv : String → JSNum) (dp : String → Option Int)
    (input : SearchInputState) (t1 t2 : Int)
    (h1 : jsTrim input.checkIn ≠ "") (h2 : jsTrim input.checkOut ≠ "")
    (hp1 : dp (jsTrim input.checkIn) = some t1) (hp2 : dp (jsTrim input.checkOut) = some t2) :
    (buildSearchPlan conv dp input = .error .ARRIVAL_AFTER_DEPARTURE ↔ t2 ≤ t1)
  ∧ (t2 ≤ t1 → ∀ (ε : Type) (st : Stages ε),
      search st conv dp input = (.error (.planError .ARRIVAL_AFTER_DEPARTURE), [])) := by
  have hd1 : parseDate dp input.checkIn true = .ok t1 := by
    simp [parseDate, h1, hp1]
  have hd2 : parseDate dp input.checkOut false = .ok t2 := by
    simp [parseDate, h2, hp2]
  have hiff : buildSearchPlan conv dp input = .error .ARRIVAL_AFTER_DEPARTURE ↔ t2 ≤ t1 := by
    constructor
    · intro h
      by_contra hn
      simp only [buildSearchPlan, hd1, hd2] at h
      rw [if_neg hn] at h
      repeat' split at h
      all_goals first
        | (injection h with h
           first
             | exact SearchPlanErrorCode.noConfusion h
             | (subst h
                rcases parseGeo_error_codes input _ (by assumption) with h' | h' <;>
                  exact SearchPlanErrorCode.noConfusion h'))
        | injection h
    · intro hle
      simp only [buildSearchPlan, hd1, hd2]
      rw [if_pos hle]
  refine ⟨hiff, ?_⟩
  intro hle ε st
  simp only [search, hiff.mpr hle]

/-- C5 (witness): `checkIn` equal to `checkOut` yields
`ARRIVAL_AFTER_DEPARTURE` and the pipeline runs no stage. -/
theorem arrival_after_departure_iff_witness :
    buildSearchPlan conv0 d0 inputSameDates = .error .ARRIVAL_AFTER_DEPARTURE
  ∧ search (shippedStages String db0 conv0) conv0 d0 inputSameDates
      = (.error (.planError .ARRIVAL_AFTER_DEPARTURE), []) := by
  have h := arrival_after_departure_iff conv0 d0 inputSameDates 0 0
    (by with_unfolding_all decide) (by with_unfolding_all decide)
    (by with_unfolding_all rfl) (by with_unfolding_all rfl)
  exact ⟨h.1.mpr le_rfl, h.2 le_rfl String (shippedStages String db0 conv0)⟩

/-- C4: the orchestrator builds the plan before invoking any stage — a plan
failure means no stage runs and that failure is the sole outcome; the stages
that do run are always an initial segment of the fixed order
candidate → availability → stayRules → pricing → ranking → pagination; and a
failure at any stage aborts all remaining stages, surfacing that single
failure with exactly the preceding stages (and the failing one) invoked. -/
theorem search_pipeline_order (ε : Type) (st : Stages ε) (conv : String → JSNum)
    (dp : String → Option Int) (input : SearchInputState) :
    (∀ c, buildSearchPlan conv dp input = .error c →
      search st conv dp input = (.error (.planError c), []))
  ∧ (∃ n, (search st conv dp input).2 = stageOrder.take n)
  ∧ (∀ plan, buildSearchPlan conv dp input = .ok plan →
      (∀ e, st.candidate plan = .error e →
        search st conv dp input = (.error (.stageError e), stageOrder.take 1))
    ∧ (∀ cands e, st.candidate plan = .ok cands →
        st.availability plan cands = .error e →
        search st conv dp input = (.error (.stageError e), stageOrder.take 2))
    ∧ (∀ cands avail e, st.candidate plan = .ok cands →
        st.availability plan cands = .ok avail →
        st.stayRules plan avail = .error e →
        search st conv dp input = (.error (.stageError e), stageOrder.take 3))
    ∧ (∀ cands avail stay e, st.candidate plan = .ok cands →
        st.availability plan cands = .ok avail →
        st.stayRules plan avail = .ok stay →
        st.pricing plan stay = .error e →
        search st conv dp input = (.error (.stageError e), stageOrder.take 4))
    ∧ (∀ cands avail stay priced e, st.candidate plan = .ok cands →
        st.availability plan cands = .ok avail →
        st.stayRules plan avail = .ok stay →
        st.pricing plan stay = .ok priced →
        st.ranking plan priced = .error e →
        search st conv dp input = (.error (.stageError e), stageOrder.take 5))
    ∧ (∀ cands avail stay priced ranked e, st.candidate plan = .ok cands →
        st.availability plan cands = .ok avail →
        st.stayRules plan avail = .ok stay →
        st.pricing plan stay = .ok priced →
        st.ranking plan priced = .ok ranked →
        st.pagination plan ranked = .error e →
        search st conv dp input = (.error (.stageError e), stageOrder.take 6))
    ∧ (∀ cands avail stay priced ranked result, st.candidate plan = .ok cands →
        st.availability plan cands = .ok avail →
        st.stayRules plan avail = .ok stay →
        st.pricing plan stay = .ok priced →
        st.ranking plan priced = .ok ranked →
        st.pagination plan ranked = .ok result →
        search st conv dp input = (.ok result, stageOrder))) := by
  refine ⟨?_, ?_, ?_⟩
  · intro c hb
    simp [search, hb]
  · rcases hb : buildSearchPlan conv dp input with c | plan
    · exact ⟨0, by simp [search, hb, stageOrder]⟩
    rcases hc : st.candidate plan with e | cands
    · exact ⟨1, by simp [search, hb, hc, stageOrder]⟩
    rcases ha : st.availability plan cands with e | avail
    · exact ⟨2, by simp [search, hb, hc, ha, stageOrder]⟩
    rcases hs : st.stayRules plan avail with e | stay
    · exact ⟨3, by simp [search, hb, hc, ha, hs, stageOrder]⟩
    rcases hq : st.pricing plan stay with e | priced
    · exact ⟨4, by simp [search, hb, hc, ha, hs, hq, stageOrder]⟩
    rcases hk : st.ranking plan priced with e | ranked
    · exact ⟨5, by simp [search, hb, hc, ha, hs, hq, hk, stageOrder]⟩
    rcases hg : st.pagination plan ranked with e | result
    · exact ⟨6, by simp [search, hb, hc, ha, hs, hq, hk, hg, stageOrder]⟩
    · exact ⟨6, by simp [search, hb, hc, ha, hs, hq, hk, hg, stageOrder]⟩
  · intro plan hb
    refine ⟨?_, ?_, ?_, ?_, ?_, ?_, ?_⟩
    · intro e hc
      simp [search, hb, hc, stageOrder]
    · intro cands e hc ha
      simp [search, hb, hc, ha, stageOrder]
    · intro cands avail e hc ha hs
      simp [search, hb, hc, ha, hs, stageOrder]
    · intro cands avail stay e hc ha hs hq
      simp [search, hb, hc, ha, hs, hq, stageOrder]
    · intro cands avail stay priced e hc ha hs hq hk
      simp [search, hb, hc, ha, hs, hq, hk, stageOrder]
    · intro cands avail stay priced ranked e hc ha hs hq hk hg
      simp [search, hb, hc, ha, hs, hq, hk, hg, stageOrder]
    · intro cands avail stay priced ranked result hc ha hs hq hk hg
      simp [search, hb, hc, ha, hs, hq, hk, hg, stageOrder]

/-- C4 (witness): with a stage set whose availability stage fails, the
concrete valid input runs exactly candidate then availability and surfaces
that single failure. -/
theorem search_pipeline_order_witness :
    search failingStages conv0 d0 input0
      = (.error (.stageError "availability backend down"), [.candidate, .availability]) := by
  have h : buildSearchPlan conv0 d0 input0 = .ok plan0 := by with_unfolding_all rfl
  have hc := ((search_pipeline_order String failingStages conv0 d0 input0).2.2 plan0 h).2.1
    [] "availability backend down" rfl rfl
  rw [hc]
  rfl

/-- C8: for every built plan, `geo` is present; the candidate query binds the
radius converted to meters (`plan.radius × 1000`) as the second-to-last
value, referenced by the `ST_DWithin` placeholder — never spliced into the
text, which is invariant under changing the radius — and projects the
computed distance as `distance_meters`; row mapping renders a parsed
distance as its floored integer with the explicit unit string `Meters`. -/
theorem geo_filter_bound_params (conv : String → JSNum) (dp : String → Option Int)
    (input : SearchInputState) (plan : SearchPlan)
    (h : buildSearchPlan conv dp input = .ok plan) :
    plan.geo.isSome = true
  ∧ ((buildCandidateSql plan).2[(buildCandidateSql plan).2.length - 2]?
      = some (JSVal.num (JSNum.fin (plan.radius * 1000))))
  ∧ strHas (buildCandidateSql plan).1
      ("ST_DWithin(p." ++ getGeoColumn plan ++ "::geography, params.p, $"
        ++ toString ((buildCandidateSql plan).2.length - 1) ++ ")") = true
  ∧ strHas (buildCandidateSql plan).1
      ("ST_Distance(p." ++ getGeoColumn plan ++ "::geography, params.p) AS distance_meters")
      = true
  ∧ (∀ r : ℚ, (buildCandidateSql { plan with radius := r }).1 = (buildCandidateSql plan).1)
  ∧ (∀ (conv2 : String → JSNum) (row : CandidateRow) (s : String) (q : ℚ),
      row.distance_meters = some s → conv2 s = .fin q →
      (mapRowToCandidate conv2 row).distance_meters = some (toString ⌊q⌋ ++ " Meters")) := by
  obtain ⟨-, -, -, -, -, hgeo⟩ := build_ok_fields conv dp input plan h
  obtain ⟨g, hg⟩ := Option.isSome_iff_exists.mp hgeo
  obtain ⟨ha, hb, hc⟩ := (buildCandidateSql_facts plan).2.2.2 g hg
  refine ⟨hgeo, ha, hb, hc, ?_, ?_⟩
  · intro r
    exact buildCandidateSql_text_congr _ _ rfl rfl rfl
  · intro conv2 row s q hs hq
    simp [mapRowToCandidate, hs, hq, jsToNumber, jsFloorString]

/-- C8 (witness): the theorem at the scenario plan (radius 10 km bound as
10000 m) and a concrete row whose distance string maps to `1234 Meters`. -/
theorem geo_filter_bound_params_witness :
    buildSearchPlan conv0 d0 input0 = .ok plan0
  ∧ ((buildCandidateSql plan0).2[(buildCandidateSql plan0).2.length - 2]?
      = some (JSVal.num (JSNum.fin (plan0.radius * 1000))))
  ∧ (mapRowToCandidate conv0 row0).distance_meters
      = some (toString ⌊(123456 / 100 : ℚ)⌋ ++ " Meters") := by
  have h : buildSearchPlan conv0 d0 input0 = .ok plan0 := by with_unfolding_all rfl
  have hw := geo_filter_bound_params conv0 d0 input0 plan0 h
  exact ⟨h, hw.2.1,
    hw.2.2.2.2.2 conv0 row0 "1234.56" (123456 / 100) rfl (by with_unfolding_all rfl)⟩

/-- C9 (amended): every field read through the returned plan other than the
raw `input` reference is fixed at build time — later caller mutation of the
input object (including its filters map) cannot change the plan's `options`
(the build-time shallow copy of `input.filters`), `geo`, or any derived
field; but the plan retains the reference to the caller's input object in
its `input` field, through which mutations remain observable. -/
theorem plan_freeze_copy_amended :
    (∀ (plan : SearchPlan) (cur : SearchInputState),
        (observePlan plan cur).options = plan.options
      ∧ (observePlan plan cur).geo = plan.geo
      ∧ (observePlan plan cur).checkInMs = plan.checkInMs
      ∧ (observePlan plan cur).checkOutMs = plan.checkOutMs
      ∧ (observePlan plan cur).nights = plan.nights
      ∧ (observePlan plan cur).guests = plan.guests
      ∧ (observePlan plan cur).page = plan.page
      ∧ (observePlan plan cur).pageSize = plan.pageSize
      ∧ (observePlan plan cur).radius = plan.radius
      ∧ (observePlan plan cur).hasChildren = plan.hasChildren
      ∧ (observePlan plan cur).input = cur)
  ∧ (∀ (conv : String → JSNum) (dp : String → Option Int) (input : SearchInputState)
        (plan : SearchPlan), buildSearchPlan conv dp input = .ok plan →
        plan.options = input.filters) := by
  refine ⟨fun plan cur => ⟨rfl, rfl, rfl, rfl, rfl, rfl, rfl, rfl, rfl, rfl, rfl⟩, ?_⟩
  intro conv dp input plan h
  exact (build_ok_fields conv dp input plan h).2.2.2.2.1

/-- C9 (counterexample to the claim as stated): after the caller mutates
`adults` on its input object, that mutation *is* observable through the
returned (frozen) plan, via the retained `plan.input` reference — so "no
mutation ... can change any field observable through the returned plan" is
false. -/
theorem plan_input_alias_counterexample :
    buildSearchPlan conv0 d0 input0 = .ok plan0
  ∧ input0mut = { input0 with adults := .fin 3 }
  ∧ (observePlan plan0 input0).input.adults = .fin 2
  ∧ (observePlan plan0 input0mut).input.adults = .fin 3 := by
  exact ⟨by with_unfolding_all rfl, rfl, rfl, rfl⟩

/-- C9 (witness): the amended theorem at a concrete built plan — its options
are the build-time copy of the filters and observation of `options` is
independent of the caller's current object. -/
theorem plan_freeze_copy_amended_witness :
    buildSearchPlan conv0 d0 input7 = .ok plan7
  ∧ plan7.options = input7.filters
  ∧ (observePlan plan7 input0mut).options = plan7.options := by
  have h : buildSearchPlan conv0 d0 input7 = .ok plan7 := by with_unfolding_all rfl
  exact ⟨h, plan_freeze_copy_amended.2 conv0 d0 input7 plan7 h,
    (plan_freeze_copy_amended.1 plan7 input0mut).1⟩

/-- C10: with the shipped stage implementations, every accepted input yields
a result with an empty properties array, `total = 0` and `totalPages = 1`,
no matter what rows the store returns — the availability and pricing stubs
discard everything before pagination. -/
theorem shipped_pipeline_empty_result (ε : Type) (conv : String → JSNum)
    (dp : String → Option Int) (db : String × List JSVal → List CandidateRow)
    (input : SearchInputState) (plan : SearchPlan)
    (h : buildSearchPlan conv dp input = .ok plan) :
    search (shippedStages ε db conv) conv dp input
      = (.ok { properties := []
               pagination := { page := plan.page, pageSize := plan.pageSize,
                               total := 0, totalPages := 1 } }, stageOrder) := by
  simp [search, h, shippedStages, availabilityStage, stayRulesStage, pricingStage,
    rankingStage, pagination]

/-- C10 (witness): the theorem at the scenario input with a store that
returns one row — the result is still empty with `total = 0`,
`totalPages = 1`. -/
theorem shipped_pipeline_empty_result_witness :
    db0 (buildCandidateSql plan0) = [row0]
  ∧ search (shippedStages String db0 conv0) conv0 d0 input0
      = (.ok { properties := []
               pagination := { page := 1, pageSize := 20, total := 0, totalPages := 1 } },
         stageOrder) := by
  have h : buildSearchPlan conv0 d0 input0 = .ok plan0 := by with_unfolding_all rfl
  have hr := shipped_pipeline_empty_result String conv0 d0 db0 input0 plan0 h
  rw [hr]
  exact ⟨rfl, by with_unfolding_all rfl⟩

end SearchAPI
